import Mathlib

/-!
Verification development for the express-async-super library.

The definitions below are shallow embeddings of the library's source:
* `categorizeError`, `isRetryableError`, `createEnhancedError` and the
  metrics-store operations come from `src/utils/index.ts`;
* the `AsyncWrapper` namespace embeds the class of the same name from
  `src/core/async-wrapper.ts` (route-handler wrapping, error dispatch,
  default responder, performance-monitoring bookkeeping);
* the `RoutePatcher` namespace embeds the patching logic of
  `src/core/route-patcher.ts`.

JavaScript strings are modelled by `String`, JS numbers that matter here
by `Int`, and possibly-absent fields (`statusCode`, `status`, `code`, ...)
by `Option`.  JS truthiness of `x || y` on numbers and strings is made
explicit by `jsNumOr` / `jsStrOrOpt`.
-/

namespace ExpressAsyncSuper

/-- Lower-case a string character by character: model of JS `toLowerCase()`
for the ASCII messages the classifier inspects. -/
def lower (s : String) : String :=
  ⟨s.data.map Char.toLower⟩

/-- Model of JS `String.prototype.includes`: `sub` occurs contiguously in `s`. -/
def strContains (s sub : String) : Bool :=
  (s.data.tails).any (fun t => sub.data.isPrefixOf t)

/-- Model of JS `String.prototype.startsWith`. -/
def strStartsWith (s p : String) : Bool :=
  p.data.isPrefixOf s.data

/-- Model of JS `a || b` on possibly-absent numbers: `0` (and absence) is falsy. -/
def jsNumOr (a b : Option Int) : Option Int :=
  match a with
  | some v => if v = 0 then b else some v
  | none => b

/-- Model of JS `a || b` where `a` is a possibly-absent string and `b` a
string: the empty string (and absence) is falsy. -/
def jsStrOrOpt (a : Option String) (b : String) : String :=
  match a with
  | some s => if s = "" then b else s
  | none => b

/-- The `ErrorCategory` enum of `src/types` (values `"database"`, `"network"`, ...). -/
inductive ErrorCategory
  | database
  | network
  | validation
  | authentication
  | authorization
  | businessLogic
  | system
  | unknown
deriving DecidableEq, Repr

/-- A raw JS error as the library inspects it: its message, name, optional
stack, and the optional extra fields (`code`, `statusCode`, `status`,
`correlationId`) that JS code can attach to any error object. -/
structure Err where
  message : String
  name : String
  stack : Option String := none
  code : Option String := none
  statusCode : Option Int := none
  status : Option Int := none
  correlationId : Option String := none
deriving DecidableEq, Repr

/-- The slice of an Express request the library reads: method, raw path,
the matched route path (`req.route?.path`), and the correlation id of the
request's attached `asyncContext` when one exists. -/
structure ReqInfo where
  method : String
  path : String
  routePath : Option String := none
  contextCorrelationId : Option String := none
deriving DecidableEq, Repr

/-- Network indicators of `categorizeError` (`src/utils/index.ts:413`). -/
def networkIndicator (e : Err) : Bool :=
  strContains (lower e.message) "connect" ||
  strContains (lower e.message) "timeout" ||
  strContains (lower e.message) "network" ||
  strContains (lower e.message) "fetch" ||
  strContains (lower e.name) "network" ||
  e.code == some "ECONNREFUSED" ||
  e.code == some "ENOTFOUND"

/-- Database indicators of `categorizeError` (`src/utils/index.ts:424`). -/
def databaseIndicator (e : Err) : Bool :=
  strContains (lower e.message) "database" ||
  strContains (lower e.message) "sql" ||
  strContains (lower e.message) "connection" ||
  strContains (lower e.name) "sequelize" ||
  strContains (lower e.name) "mongo" ||
  strContains (lower e.name) "redis" ||
  strContains (lower (e.stack.getD "")) "database" ||
  strContains (lower (e.stack.getD "")) "mongoose"

/-- Validation indicators of `categorizeError` (`src/utils/index.ts:436`). -/
def validationIndicator (e : Err) : Bool :=
  strContains (lower e.message) "validation" ||
  strContains (lower e.message) "invalid" ||
  strContains (lower e.message) "required" ||
  strContains (lower e.name) "validation" ||
  strContains (lower e.name) "joi" ||
  strContains (lower e.name) "yup"

/-- Authentication indicators of `categorizeError` (`src/utils/index.ts:446`). -/
def authenticationIndicator (e : Err) : Bool :=
  strContains (lower e.message) "unauthorized" ||
  strContains (lower e.message) "authentication" ||
  strContains (lower e.message) "login" ||
  strContains (lower e.message) "token" ||
  strContains (lower e.name) "auth" ||
  e.statusCode == some 401

/-- Authorization indicators of `categorizeError` (`src/utils/index.ts:456`). -/
def authorizationIndicator (e : Err) : Bool :=
  strContains (lower e.message) "forbidden" ||
  strContains (lower e.message) "permission" ||
  strContains (lower e.message) "access denied" ||
  e.statusCode == some 403

/-- System indicators of `categorizeError` (`src/utils/index.ts:464`). -/
def systemIndicator (e : Err) : Bool :=
  strContains (lower e.name) "system" ||
  strContains (lower e.message) "enoent" ||
  strContains (lower e.message) "eacces" ||
  strContains (lower e.message) "file system" ||
  strStartsWith (e.code.getD "") "E"

/-- The standalone `categorizeError` utility (`src/utils/index.ts:407`):
first matching indicator group wins, in the fixed priority order
network, database, validation, authentication, authorization, system. -/
def categorizeError (e : Err) : ErrorCategory :=
  if networkIndicator e then .network
  else if databaseIndicator e then .database
  else if validationIndicator e then .validation
  else if authenticationIndicator e then .authentication
  else if authorizationIndicator e then .authorization
  else if systemIndicator e then .system
  else .unknown

/-- Transient-database indicators of `isRetryableError`
(`src/utils/index.ts:490`): transient message words or a known transient code. -/
def dbTransientIndicator (e : Err) : Bool :=
  strContains (lower e.message) "timeout" ||
  strContains (lower e.message) "connection" ||
  strContains (lower e.message) "temporary" ||
  e.code == some "ECONNRESET" ||
  e.code == some "ETIMEDOUT"

/-- The standalone `isRetryableError` utility (`src/utils/index.ts:478`).
NETWORK returns true; a transient DATABASE error returns true (a
non-transient one falls through); SYSTEM, VALIDATION, AUTHENTICATION and
AUTHORIZATION return false; anything left falls back to the
`statusCode || status` field: present, truthy and in `[500, 600)`. -/
def isRetryableError (e : Err) : Bool :=
  if categorizeError e = .network then true
  else if categorizeError e = .database ∧ dbTransientIndicator e = true then true
  else if categorizeError e = .system then false
  else if categorizeError e = .validation ∨
          categorizeError e = .authentication ∨
          categorizeError e = .authorization then false
  else
    match jsNumOr e.statusCode e.status with
    | some n => if n = 0 then false else decide (500 ≤ n ∧ n < 600)
    | none => false

/-- The additional-context argument of `createEnhancedError`
(`Partial<EnhancedError>`): only the keys the spec discusses are modelled;
a `some` field means the key is present in the object. -/
structure AddCtx where
  timestamp : Option Nat := none
  correlationId : Option String := none
  duration : Option Int := none
deriving DecidableEq, Repr

/-- The result of the standalone `createEnhancedError` utility
(`src/utils/index.ts:21`): message/name/stack copied over, a timestamp,
and the optional enrichment fields. -/
structure UtilEnhanced where
  message : String
  name : String
  stack : String
  timestamp : Option Nat
  correlationId : Option String
  duration : Option Int
  routePath : Option String
  method : Option String
deriving DecidableEq, Repr

/-- The standalone `createEnhancedError` utility (`src/utils/index.ts:21`).
The object literal spreads the original error, re-sets name/message/stack,
sets `timestamp: new Date()` (modelled by the `now` argument), then spreads
`additionalContext` last, so context keys override; `correlationId` is
never computed — it only survives from the original error's own field or
arrives through `additionalContext`.  Request data fills `routePath`
(`req.route?.path || req.path`) and `method` when a request is supplied. -/
def createEnhancedError (now : Nat) (e : Err) (req : Option ReqInfo)
    (ctx : Option AddCtx) : UtilEnhanced :=
  { message := e.message
    name := e.name
    stack := e.stack.getD ""
    timestamp :=
      match ctx.bind (fun c => c.timestamp) with
      | some t => some t
      | none => some now
    correlationId :=
      match ctx.bind (fun c => c.correlationId) with
      | some v => some v
      | none => e.correlationId
    duration := ctx.bind (fun c => c.duration)
    routePath := req.map (fun r => jsStrOrOpt r.routePath r.path)
    method := req.map (fun r => r.method) }

namespace AsyncWrapper

/-- Network indicators of `AsyncWrapper.categorizeError`
(`src/core/async-wrapper.ts`, the wrapper's own classifier). -/
def networkIndicator (e : Err) : Bool :=
  strContains (lower e.message) "connect" ||
  strContains (lower e.message) "timeout" ||
  strContains (lower e.name) "network"

/-- Database indicators of `AsyncWrapper.categorizeError`. -/
def databaseIndicator (e : Err) : Bool :=
  strContains (lower e.message) "database" ||
  strContains (lower e.message) "sql" ||
  strContains (lower e.name) "sequelize"

/-- Validation indicators of `AsyncWrapper.categorizeError`. -/
def validationIndicator (e : Err) : Bool :=
  strContains (lower e.message) "validation" ||
  strContains (lower e.name) "validation"

/-- Auth indicators of `AsyncWrapper.categorizeError`: note that both
`"unauthorized"` and `"forbidden"` live in this one group. -/
def authIndicator (e : Err) : Bool :=
  strContains (lower e.message) "unauthorized" ||
  strContains (lower e.message) "forbidden" ||
  strContains (lower e.name) "auth"

/-- System indicators of `AsyncWrapper.categorizeError`. -/
def systemIndicator (e : Err) : Bool :=
  strContains (lower e.name) "system" ||
  strContains (lower e.message) "enoent" ||
  strContains (lower e.message) "eacces"

/-- The method `AsyncWrapper.categorizeError`: the wrapper's private classifier.  It
has no AUTHORIZATION branch and never inspects `code`/`statusCode`; the
`"forbidden"` keyword yields AUTHENTICATION. -/
def categorizeError (e : Err) : ErrorCategory :=
  if networkIndicator e then .network
  else if databaseIndicator e then .database
  else if validationIndicator e then .validation
  else if authIndicator e then .authentication
  else if systemIndicator e then .system
  else .unknown

/-- Transient-database message words of `AsyncWrapper.isRetryableError`
(no code check, unlike the standalone utility). -/
def dbTransientIndicator (e : Err) : Bool :=
  strContains (lower e.message) "timeout" ||
  strContains (lower e.message) "connection" ||
  strContains (lower e.message) "temporary"

/-- The method `AsyncWrapper.isRetryableError`: NETWORK is retryable, a transient
DATABASE error is retryable, and everything else — including errors whose
`statusCode` is a 5xx — ends in the final `return false`. -/
def isRetryableError (e : Err) : Bool :=
  if categorizeError e = .network then true
  else if categorizeError e = .database ∧ dbTransientIndicator e = true then true
  else if categorizeError e = .system then false
  else if categorizeError e = .validation then false
  else false

end AsyncWrapper

/-- The enhanced error built by `AsyncWrapper.createEnhancedError`
(`src/core/async-wrapper.ts:1613`): the original error's fields spread in
(so `statusCode`/`status` survive), plus the wrapper-computed category,
retryable flag and correlation id (always a string: context id or fresh). -/
structure EnhancedErrorM where
  message : String
  name : String
  statusCode : Option Int := none
  status : Option Int := none
  category : ErrorCategory := .unknown
  retryable : Bool := false
  correlationId : String := ""
deriving DecidableEq, Repr

namespace AsyncWrapper

/-- The method `AsyncWrapper.createEnhancedError` restricted to the fields this
development tracks.  `ctxCorrelationId` is `context?.correlationId` and
`fresh` stands for the value `generateCorrelationId()` would produce, so
`correlationId` is `context?.correlationId || generateCorrelationId()`
(JS `||`: an absent context or an empty id falls back to `fresh`). -/
def createEnhancedError (e : Err) (ctxCorrelationId : Option String)
    (fresh : String) : EnhancedErrorM :=
  { message := e.message
    name := e.name
    statusCode := e.statusCode
    status := e.status
    category := categorizeError e
    retryable := isRetryableError e
    correlationId := jsStrOrOpt ctxCorrelationId fresh }

/-- The method `AsyncWrapper.getStatusCodeFromError` (`src/core/async-wrapper.ts:1842`):
an explicit numeric `statusCode` wins, then an explicit numeric `status`,
then the category decides (VALIDATION 400, AUTHENTICATION 401,
AUTHORIZATION 403, DATABASE/NETWORK/SYSTEM 500, default 500). -/
def getStatusCodeFromError (e : EnhancedErrorM) : Int :=
  match e.statusCode with
  | some n => n
  | none =>
    match e.status with
    | some n => n
    | none =>
      match e.category with
      | .validation => 400
      | .authentication => 401
      | .authorization => 403
      | .database => 500
      | .network => 500
      | .system => 500
      | _ => 500

/-- What an error-handling step does to the response: reply with a JSON
envelope at a status (the library's own responder), or hand the error to
Express via `next(err)`. -/
inductive ErrorAction
  | statusJson (code : Int) (err : EnhancedErrorM)
  | callNext (err : EnhancedErrorM)
deriving DecidableEq, Repr

/-- The method `AsyncWrapper.defaultErrorHandler` (`src/core/async-wrapper.ts:1821`):
if headers were already sent delegate via `next(error)`, otherwise send
the JSON error envelope under `getStatusCodeFromError`. -/
def defaultErrorHandler (headersSent : Bool) (e : EnhancedErrorM) : ErrorAction :=
  if headersSent then .callNext e
  else .statusJson (getStatusCodeFromError e) e

/-- Outcome of invoking a (possibly user-supplied) error handler: it
completed with some response action, or it threw. -/
inductive HandlerRun
  | ok (a : ErrorAction)
  | thrown
deriving DecidableEq, Repr

/-- The error-handler dispatch of `AsyncWrapper.handleAsyncError`
(`src/core/async-wrapper.ts:1600`):
`try { await this.config.errorHandler(enhancedError, ...) }
 catch { this.logError(...); next(enhancedError); }` —
a throwing configured handler is caught, logged, and the original enhanced
error is passed to `next`. -/
def handleErrorDispatch (handler : EnhancedErrorM → HandlerRun)
    (e : EnhancedErrorM) : ErrorAction :=
  match handler e with
  | .ok a => a
  | .thrown => .callNext e

/-- The error-history push performed by `AsyncWrapper.handleAsyncError`
(`src/core/async-wrapper.ts:1581`) and `AsyncWrapper.wrapErrorHandler`
(`src/core/async-wrapper.ts:1433`):
`errorHistory.push(x); if (errorHistory.length > maxErrorHistory)
 errorHistory.shift();`. -/
def pushErrorHistory {α : Type} (maxHistory : Nat) (hist : List α) (x : α) :
    List α :=
  let h := hist ++ [x]
  if maxHistory < h.length then h.drop 1 else h

end AsyncWrapper

/-- A finalized performance sample as `completePerformanceMonitoring`
builds it (times as milliseconds; the memory snapshots are opaque to every
claim and are omitted). -/
structure Sample where
  startTime : Int
  endTime : Int
  duration : Int
  isSlowOperation : Bool
  route : String
  method : String
deriving DecidableEq, Repr

/-- The wrapper's `performanceMetrics: Map<string, PerformanceMetrics[]>`,
modelled as an insertion-ordered association list (JS `Map` iterates in
insertion order and holds each key once). -/
abbrev MetricsStore : Type := List (String × List Sample)

/-- The store key combinator of `completePerformanceMonitoring`
(`src/core/async-wrapper.ts:1683`):
`` `${req.method} ${req.route?.path || req.path}` ``. -/
def routeKey (r : ReqInfo) : String :=
  r.method ++ " " ++ jsStrOrOpt r.routePath r.path

/-- Model of `if (!map.has(key)) map.set(key, []); map.get(key)!.push(metrics)`:
append a sample to the key's bucket, creating the bucket at the end of the
map when the key is new. -/
def storeAppend (st : MetricsStore) (k : String) (s : Sample) : MetricsStore :=
  match st with
  | [] => [(k, [s])]
  | (k', l) :: rest =>
    if k' = k then (k', l ++ [s]) :: rest else (k', l) :: storeAppend rest k s

/-- Model of `this.performanceMetrics.get(route) || []` in `getPerformanceMetrics`. -/
def storeGet (st : MetricsStore) (k : String) : List Sample :=
  match st with
  | [] => []
  | (k', l) :: rest => if k' = k then l else storeGet rest k

/-- The route-omitted branch of `getPerformanceMetrics`: concatenate every
bucket in map order (`forEach` + spread-push). -/
def storeGetAll (st : MetricsStore) : List Sample :=
  match st with
  | [] => []
  | (_, l) :: rest => l ++ storeGetAll rest

/-- Model of `clearPerformanceMetrics` (`src/core/async-wrapper.ts:1536`): `map.clear()`. -/
def storeClear : MetricsStore := []

/-- The method `AsyncWrapper.getPerformanceMetrics` (`src/core/async-wrapper.ts:1522`):
with a truthy route argument look the key up, otherwise return all samples
(JS `if (route)`: an absent or empty route means "all"). -/
def getPerformanceMetrics (st : MetricsStore) (route : Option String) :
    List Sample :=
  match route with
  | some r => if r = "" then storeGetAll st else storeGet st r
  | none => storeGetAll st

/-- The sample finalized by `completePerformanceMonitoring`
(`src/core/async-wrapper.ts:1676`): `duration = endTime - startTime`,
`isSlowOperation = duration > performanceThreshold`, route and method
taken as at `startPerformanceMonitoring`. -/
def finalizeSample (threshold startTime endTime : Int) (r : ReqInfo) : Sample :=
  { startTime
    endTime
    duration := endTime - startTime
    isSlowOperation := decide (endTime - startTime > threshold)
    route := jsStrOrOpt r.routePath r.path
    method := r.method }

/-- The method `AsyncWrapper.completePerformanceMonitoring`: finalize the sample and
append it to the store under `routeKey`. -/
def completePerformanceMonitoring (threshold startTime endTime : Int)
    (r : ReqInfo) (st : MetricsStore) : MetricsStore :=
  storeAppend st (routeKey r) (finalizeSample threshold startTime endTime r)

/-- How one invocation of the wrapped handler ends: normal return, or a
rejection/throw carrying an error. -/
inductive HandlerOutcome
  | ok
  | fail (e : Err)
deriving DecidableEq, Repr

/-- The metrics effect of one run of the handler produced by
`AsyncWrapper.wrapRouteHandler` (`src/core/async-wrapper.ts:1364`): when
monitoring is enabled a sample is started at entry; on normal return
`completePerformanceMonitoring` stores it; on a caught error control goes
to `handleAsyncError`, which never touches the metrics store. -/
def wrapRouteHandlerMetrics (performance : Bool) (threshold : Int)
    (r : ReqInfo) (startTime endTime : Int) (outcome : HandlerOutcome)
    (st : MetricsStore) : MetricsStore :=
  if performance then
    match outcome with
    | .ok => completePerformanceMonitoring threshold startTime endTime r st
    | .fail _ => st
  else st

/-- Replay a sequence of recorded samples (key, sample) against an empty
store, as successive `completePerformanceMonitoring` calls would. -/
def buildStore (recs : List (String × Sample)) : MetricsStore :=
  recs.foldl (fun st p => storeAppend st p.1 p.2) []

namespace RoutePatcher

/-- The per-application state `RoutePatcher.patchApp` manipulates:
membership in the patcher's `patchedApps` WeakSet, and how many wrapping
layers the registration methods carry (each `patchApp` body replaces them
with a version wrapping handlers once more around whatever was there). -/
structure AppModel where
  patched : Bool
  wrapLayers : Nat
deriving DecidableEq, Repr

/-- An application object before any patching. -/
def freshApp : AppModel := { patched := false, wrapLayers := 0 }

/-- The method `RoutePatcher.patchApp` (`src/core/route-patcher.ts:1993`): return
immediately when the app is in `patchedApps`; skip (without marking) in
`developmentOnly` mode under production; otherwise replace the
registration methods (one more wrapping layer) and record the app. -/
def patchApp (developmentOnly production : Bool) (a : AppModel) : AppModel :=
  if a.patched then a
  else if developmentOnly && production then a
  else { patched := true, wrapLayers := a.wrapLayers + 1 }

/-- A handler wrapped in `n` layers still calls the underlying function
exactly once per request: `wrapRouteHandler` awaits its argument once, so
each layer passes one invocation through. -/
def invocationsPerRequest : Nat → Nat
  | 0 => 1
  | n + 1 => invocationsPerRequest n

/-- The function-object state `RoutePatcher.wrapErrorHandler` inspects:
the non-enumerable `_asyncSuperWrapped` marker, the wrapping depth, and
the function's declared arity (`fn.length`). -/
structure FuncModel where
  wrappedMarker : Bool
  layers : Nat
  arity : Nat
deriving DecidableEq, Repr

/-- The method `RoutePatcher.wrapErrorHandler` (`src/core/route-patcher.ts:2253`): a
function already carrying `_asyncSuperWrapped` is returned as-is;
otherwise wrap it via `asyncWrapper.wrapErrorHandler` (a fresh 4-parameter
function) and set the marker on the result. -/
def wrapErrorHandler (f : FuncModel) : FuncModel :=
  if f.wrappedMarker then f
  else { wrappedMarker := true, layers := f.layers + 1, arity := 4 }

/-- The argument processing of the patched `use`
(`src/core/route-patcher.ts:2229`): a function argument of arity 4 is
routed through `wrapErrorHandler`, everything else passes unchanged. -/
def patchedUseArg (f : FuncModel) : FuncModel :=
  if f.arity = 4 then wrapErrorHandler f else f

end RoutePatcher

/-! Helper lemmas about the history buffer and the metrics store. -/

theorem pushErrorHistory_length_le {α : Type} (maxHistory : Nat)
    (hist : List α) (x : α) (h : hist.length ≤ maxHistory) :
    (AsyncWrapper.pushErrorHistory maxHistory hist x).length ≤ maxHistory := by
  unfold AsyncWrapper.pushErrorHistory
  by_cases hlt : maxHistory < (hist ++ [x]).length
  · simp only [hlt, if_true]
    simpa using h
  · simp only [hlt, if_false]
    simp at hlt
    simpa using hlt

theorem foldl_pushErrorHistory_length_le {α : Type} (maxHistory : Nat)
    (es : List α) (hist : List α) (h : hist.length ≤ maxHistory) :
    (es.foldl (AsyncWrapper.pushErrorHistory maxHistory) hist).length ≤
      maxHistory := by
  induction es generalizing hist with
  | nil => simpa using h
  | cons x xs ih =>
    exact ih _ (pushErrorHistory_length_le maxHistory hist x h)

theorem pushErrorHistory_evicts_head {α : Type} (maxHistory : Nat)
    (hist : List α) (x : α) (hne : hist ≠ [])
    (h : maxHistory < hist.length + 1) :
    AsyncWrapper.pushErrorHistory maxHistory hist x = hist.tail ++ [x] := by
  cases hist with
  | nil => exact absurd rfl hne
  | cons a as =>
    unfold AsyncWrapper.pushErrorHistory
    have hc : maxHistory < ((a :: as) ++ [x]).length := by
      have hlen : (a :: as).length = as.length + 1 := by simp
      rw [hlen] at h
      simp only [List.cons_append, List.length_cons, List.length_append,
        List.length_singleton]
      omega
    show (if maxHistory < ((a :: as) ++ [x]).length then
        List.drop 1 ((a :: as) ++ [x]) else (a :: as) ++ [x]) =
      (a :: as).tail ++ [x]
    rw [if_pos hc]
    simp

theorem storeGet_storeAppend_same (st : MetricsStore) (k : String)
    (s : Sample) : storeGet (storeAppend st k s) k = storeGet st k ++ [s] := by
  induction st with
  | nil => simp [storeAppend, storeGet]
  | cons p rest ih =>
    obtain ⟨k', l⟩ := p
    by_cases h : k' = k <;> simp [storeAppend, storeGet, h, ih]

theorem storeGet_storeAppend_other (st : MetricsStore) (k q : String)
    (s : Sample) (h : q ≠ k) :
    storeGet (storeAppend st k s) q = storeGet st q := by
  induction st with
  | nil => simp [storeAppend, storeGet, Ne.symm h]
  | cons p rest ih =>
    obtain ⟨k', l⟩ := p
    by_cases hk : k' = k
    · subst hk
      simp [storeAppend, storeGet, Ne.symm h]
    · by_cases hq : k' = q <;> simp [storeAppend, storeGet, hk, hq, ih, h]

theorem storeGetAll_storeAppend_perm (st : MetricsStore) (k : String)
    (s : Sample) :
    (storeGetAll (storeAppend st k s)).Perm (storeGetAll st ++ [s]) := by
  induction st with
  | nil => simp [storeAppend, storeGetAll]
  | cons p rest ih =>
    obtain ⟨k', l⟩ := p
    by_cases h : k' = k
    · subst h
      simp only [storeAppend, if_pos rfl, storeGetAll]
      rw [List.append_assoc, List.append_assoc]
      exact List.Perm.append_left l List.perm_append_comm
    · simp only [storeAppend, if_neg h, storeGetAll]
      rw [List.append_assoc]
      exact List.Perm.append_left l ih

theorem storeGet_buildStore_aux (recs : List (String × Sample))
    (st : MetricsStore) (k : String) :
    storeGet (recs.foldl (fun acc p => storeAppend acc p.1 p.2) st) k =
      storeGet st k ++ (recs.filter (fun p => p.1 == k)).map (fun p => p.2) := by
  induction recs generalizing st with
  | nil => simp
  | cons p ps ih =>
    obtain ⟨k', s⟩ := p
    by_cases h : k' = k
    · subst h
      simp [ih, storeGet_storeAppend_same]
    · simp [ih, storeGet_storeAppend_other st k' k s (Ne.symm h), h]

theorem storeGetAll_buildStore_aux (recs : List (String × Sample))
    (st : MetricsStore) :
    (storeGetAll (recs.foldl (fun acc p => storeAppend acc p.1 p.2) st)).Perm
      (storeGetAll st ++ recs.map (fun p => p.2)) := by
  induction recs generalizing st with
  | nil => simp
  | cons p ps ih =>
    refine (ih _).trans ?_
    have h1 := (storeGetAll_storeAppend_perm st p.1 p.2).append_right
      (ps.map (fun q => q.2))
    refine h1.trans ?_
    simp

/-! The claim theorems. -/

/-- Claim C3: after each push by the route-handler wrapper or the
error-handler wrapper, `errorHistory` never exceeds `maxErrorHistory`
(both for one preserved step and along any push sequence from the empty
history a fresh context starts with), and a push that would exceed the
limit evicts the head of the list — the entry pushed earliest, since
pushes append at the tail (FIFO). -/
theorem c3_error_history_bounded :
    (∀ (maxHistory : Nat) (hist : List EnhancedErrorM) (x : EnhancedErrorM),
        hist.length ≤ maxHistory →
        (AsyncWrapper.pushErrorHistory maxHistory hist x).length ≤ maxHistory) ∧
    (∀ (maxHistory : Nat) (es : List EnhancedErrorM),
        (es.foldl (AsyncWrapper.pushErrorHistory maxHistory) []).length ≤
          maxHistory) ∧
    (∀ (maxHistory : Nat) (hist : List EnhancedErrorM) (x : EnhancedErrorM),
        hist ≠ [] → maxHistory < hist.length + 1 →
        AsyncWrapper.pushErrorHistory maxHistory hist x = hist.tail ++ [x]) :=
  ⟨fun m hist x h => pushErrorHistory_length_le m hist x h,
   fun m es => foldl_pushErrorHistory_length_le m es [] (by simp),
   fun m hist x hne h => pushErrorHistory_evicts_head m hist x hne h⟩

/-- Claim C3 witness: a concrete push against a full two-element history
with `maxErrorHistory = 2` stays at length `2` and drops the oldest entry. -/
theorem c3_error_history_bounded_witness :
    (AsyncWrapper.pushErrorHistory 2
      [{ message := "a", name := "E" }, { message := "b", name := "E" }]
      ({ message := "c", name := "E" } : EnhancedErrorM)).length ≤ 2 ∧
    AsyncWrapper.pushErrorHistory 2
      [{ message := "a", name := "E" }, { message := "b", name := "E" }]
      ({ message := "c", name := "E" } : EnhancedErrorM) =
      List.tail [{ message := "a", name := "E" }, { message := "b", name := "E" }] ++
        [{ message := "c", name := "E" }] :=
  ⟨c3_error_history_bounded.1 2 _ _ (by decide),
   c3_error_history_bounded.2.2 2 _ _ (by decide) (by decide)⟩

/-- Claim C9: patching an application twice through the same patcher is a
no-op on the second call (`patchApp` is idempotent on the app state), so
the registration methods carry at most one wrapping layer — exactly one
when patching is not skipped — and a handler registered through them is
invoked exactly once per request. -/
theorem c9_patch_idempotent :
    (∀ (d p : Bool) (a : RoutePatcher.AppModel),
        RoutePatcher.patchApp d p (RoutePatcher.patchApp d p a) =
          RoutePatcher.patchApp d p a) ∧
    (∀ d p : Bool,
        (RoutePatcher.patchApp d p
          (RoutePatcher.patchApp d p RoutePatcher.freshApp)).wrapLayers ≤ 1) ∧
    (RoutePatcher.patchApp false false
        (RoutePatcher.patchApp false false RoutePatcher.freshApp)).wrapLayers
      = 1 ∧
    RoutePatcher.invocationsPerRequest
      (RoutePatcher.patchApp false false
        (RoutePatcher.patchApp false false RoutePatcher.freshApp)).wrapLayers
      = 1 := by
  refine ⟨?_, ?_, by decide, by decide⟩
  · intro d p a
    by_cases h1 : a.patched
    · simp [RoutePatcher.patchApp, h1]
    · by_cases h2 : (d && p) = true
      · simp [RoutePatcher.patchApp, h1, h2]
      · simp [RoutePatcher.patchApp, h1, h2]
  · intro d p
    cases d <;> cases p <;> decide

/-- Claim C10: a function already carrying the `_asyncSuperWrapped`
marker is returned unchanged by the patcher's error-handler wrapping, the
wrapping is therefore idempotent, and re-registering an already-wrapped
4-argument error handler through a patched `use` adds no second layer. -/
theorem c10_wrap_error_handler_idempotent :
    (∀ f : RoutePatcher.FuncModel, f.wrappedMarker = true →
        RoutePatcher.wrapErrorHandler f = f) ∧
    (∀ f : RoutePatcher.FuncModel,
        RoutePatcher.wrapErrorHandler (RoutePatcher.wrapErrorHandler f) =
          RoutePatcher.wrapErrorHandler f) ∧
    (∀ f : RoutePatcher.FuncModel,
        RoutePatcher.patchedUseArg (RoutePatcher.patchedUseArg f) =
          RoutePatcher.patchedUseArg f) ∧
    (∀ f : RoutePatcher.FuncModel,
        (RoutePatcher.patchedUseArg (RoutePatcher.patchedUseArg f)).layers =
          (RoutePatcher.patchedUseArg f).layers) := by
  have hmarker : ∀ f : RoutePatcher.FuncModel, f.wrappedMarker = true →
      RoutePatcher.wrapErrorHandler f = f := by
    intro f h
    simp [RoutePatcher.wrapErrorHandler, h]
  have hwrap : ∀ f : RoutePatcher.FuncModel,
      RoutePatcher.wrapErrorHandler (RoutePatcher.wrapErrorHandler f) =
        RoutePatcher.wrapErrorHandler f := by
    intro f
    by_cases h : f.wrappedMarker = true
    · simp [hmarker f h]
    · simp only [RoutePatcher.wrapErrorHandler, h, if_neg, if_false]
      simp
  have huse : ∀ f : RoutePatcher.FuncModel,
      RoutePatcher.patchedUseArg (RoutePatcher.patchedUseArg f) =
        RoutePatcher.patchedUseArg f := by
    intro f
    by_cases ha : f.arity = 4
    · by_cases h : f.wrappedMarker = true
      · simp [RoutePatcher.patchedUseArg, ha, hmarker f h]
      · simp [RoutePatcher.patchedUseArg, ha, RoutePatcher.wrapErrorHandler, h]
    · simp [RoutePatcher.patchedUseArg, ha]
  exact ⟨hmarker, hwrap, huse, fun f => by rw [huse f]⟩

/-- Claim C10 witness: a concrete already-wrapped 4-argument handler
passes through the wrapping unchanged. -/
theorem c10_wrap_error_handler_idempotent_witness :
    RoutePatcher.wrapErrorHandler
        { wrappedMarker := true, layers := 1, arity := 4 } =
      { wrappedMarker := true, layers := 1, arity := 4 } :=
  c10_wrap_error_handler_idempotent.1
    { wrappedMarker := true, layers := 1, arity := 4 } rfl

/-- Claim C1 (counterexample): the claim says a throwing user-supplied
error handler makes `handleAsyncError` fall back to the library's own
JSON responder.  On this concrete error the dispatch instead produces
`next(enhancedError)`, while the default responder would have produced a
`500` JSON reply — two different response actions. -/
theorem c1_secondary_failure_counterexample :
    AsyncWrapper.handleErrorDispatch (fun _ => .thrown)
        (AsyncWrapper.createEnhancedError { message := "boom", name := "Error" }
          none "cid-1") =
      .callNext (AsyncWrapper.createEnhancedError
        { message := "boom", name := "Error" } none "cid-1") ∧
    AsyncWrapper.defaultErrorHandler false
        (AsyncWrapper.createEnhancedError { message := "boom", name := "Error" }
          none "cid-1") =
      .statusJson 500 (AsyncWrapper.createEnhancedError
        { message := "boom", name := "Error" } none "cid-1") ∧
    AsyncWrapper.ErrorAction.callNext
        (AsyncWrapper.createEnhancedError { message := "boom", name := "Error" }
          none "cid-1") ≠
      .statusJson 500 (AsyncWrapper.createEnhancedError
        { message := "boom", name := "Error" } none "cid-1") := by
  refine ⟨rfl, by decide, by decide⟩

/-- Claim C1 (amended): when the configured error handler throws while
handling a wrapped handler's failure, `handleAsyncError` catches the
secondary failure, logs it, and passes the original enhanced error to
`next` — the framework's error pipeline, not the library's JSON
responder — so the secondary failure never determines which error is
propagated. -/
theorem c1_secondary_failure_next
    (handler : EnhancedErrorM → AsyncWrapper.HandlerRun) (e : EnhancedErrorM)
    (h : handler e = .thrown) :
    AsyncWrapper.handleErrorDispatch handler e = .callNext e := by
  unfold AsyncWrapper.handleErrorDispatch
  rw [h]

/-- Claim C1 witness: the amended theorem applied to a concrete always-
throwing handler and a concrete enhanced error. -/
theorem c1_secondary_failure_next_witness :
    AsyncWrapper.handleErrorDispatch (fun _ => .thrown)
        ({ message := "x", name := "Error" } : EnhancedErrorM) =
      .callNext ({ message := "x", name := "Error" } : EnhancedErrorM) :=
  c1_secondary_failure_next (fun _ => .thrown)
    { message := "x", name := "Error" } rfl

/-- Reference definition following the spec's words for claim C2: the
HTTP status of the default responder is "an explicit status field on the
error if present" (`statusCode`, else `status`), "else from its category
(VALIDATION→400, AUTHENTICATION→401, AUTHORIZATION→403,
DATABASE/NETWORK/SYSTEM→500 class, else 500)". -/
def specStatusOf (e : EnhancedErrorM) : Int :=
  match e.statusCode with
  | some n => n
  | none =>
    match e.status with
    | some n => n
    | none =>
      match e.category with
      | .validation => 400
      | .authentication => 401
      | .authorization => 403
      | .database => 500
      | .network => 500
      | .system => 500
      | .businessLogic => 500
      | .unknown => 500

/-- Claim C2: the status sent by the default responder agrees with the
spec's rule (`getStatusCodeFromError` refines `specStatusOf`), and in
particular an error thrown with `statusCode = 400` reaches the client as
a `400` JSON response when no headers were sent yet. -/
theorem c2_status_derivation :
    (∀ e : EnhancedErrorM,
        AsyncWrapper.getStatusCodeFromError e = specStatusOf e) ∧
    (∀ (e : Err) (cid : Option String) (fresh : String),
        e.statusCode = some 400 →
        AsyncWrapper.defaultErrorHandler false
            (AsyncWrapper.createEnhancedError e cid fresh) =
          .statusJson 400 (AsyncWrapper.createEnhancedError e cid fresh)) := by
  constructor
  · intro e
    obtain ⟨m, nm, sc, st, cat, r, cid⟩ := e
    unfold AsyncWrapper.getStatusCodeFromError specStatusOf
    cases sc <;> cases st <;> cases cat <;> rfl
  · intro e cid fresh h
    simp [AsyncWrapper.defaultErrorHandler, AsyncWrapper.getStatusCodeFromError,
      AsyncWrapper.createEnhancedError, h]

/-- Claim C2 witness: the spec's concrete scenario — an error with
`statusCode = 400` and message "Invalid email" is answered with status
`400`. -/
theorem c2_status_derivation_witness :
    AsyncWrapper.defaultErrorHandler false
        (AsyncWrapper.createEnhancedError
          { message := "Invalid email", name := "Error", statusCode := some 400 }
          none "cid-2") =
      .statusJson 400 (AsyncWrapper.createEnhancedError
        { message := "Invalid email", name := "Error", statusCode := some 400 }
        none "cid-2") :=
  c2_status_derivation.2
    { message := "Invalid email", name := "Error", statusCode := some 400 }
    none "cid-2" rfl

/-- Claim C5 (counterexample): on the error whose message is exactly
"forbidden", the standalone utility classifies AUTHORIZATION but the
wrapper's own classifier — the one whose result is attached to errors
caught by the handler wrapper — classifies AUTHENTICATION, so the claim's
"holds for the classification attached by the handler wrapper" part is
false. -/
theorem c5_forbidden_counterexample :
    categorizeError { message := "forbidden", name := "Error" } =
      .authorization ∧
    AsyncWrapper.categorizeError { message := "forbidden", name := "Error" } =
      .authentication ∧
    ErrorCategory.authentication ≠ ErrorCategory.authorization := by
  refine ⟨by decide, by decide, by decide⟩

/-- Claim C5 (amended): for the standalone `categorizeError` utility, an
error whose lower-cased message contains "forbidden" (or whose
`statusCode` is 403) and which matches none of the higher-priority
network, database, validation or authentication indicator groups is
classified AUTHORIZATION; the wrapper's own classifier instead has
"forbidden" in its authentication group, so such errors caught by the
handler wrapper are classified AUTHENTICATION. -/
theorem c5_forbidden_categorization :
    (∀ e : Err,
        networkIndicator e = false → databaseIndicator e = false →
        validationIndicator e = false → authenticationIndicator e = false →
        (strContains (lower e.message) "forbidden" = true ∨
          e.statusCode = some 403) →
        categorizeError e = .authorization) ∧
    (∀ e : Err,
        AsyncWrapper.networkIndicator e = false →
        AsyncWrapper.databaseIndicator e = false →
        AsyncWrapper.validationIndicator e = false →
        strContains (lower e.message) "forbidden" = true →
        AsyncWrapper.categorizeError e = .authentication) := by
  constructor
  · intro e h1 h2 h3 h4 h5
    have hz : authorizationIndicator e = true := by
      rcases h5 with h5 | h5 <;> simp [authorizationIndicator, h5]
    simp [categorizeError, h1, h2, h3, h4, hz]
  · intro e h1 h2 h3 h4
    have hz : AsyncWrapper.authIndicator e = true := by
      simp [AsyncWrapper.authIndicator, h4]
    simp [AsyncWrapper.categorizeError, h1, h2, h3, hz]

/-- Claim C5 witness: the amended theorem applied to a status-403 error
for the utility and to a "forbidden"-message error for the wrapper. -/
theorem c5_forbidden_categorization_witness :
    categorizeError
        { message := "no access", name := "Error", statusCode := some 403 } =
      .authorization ∧
    AsyncWrapper.categorizeError { message := "forbidden", name := "Err" } =
      .authentication :=
  ⟨c5_forbidden_categorization.1
      { message := "no access", name := "Error", statusCode := some 403 }
      (by decide) (by decide) (by decide) (by decide) (Or.inr rfl),
   c5_forbidden_categorization.2 { message := "forbidden", name := "Err" }
      (by decide) (by decide) (by decide) (by decide)⟩

/-- Claim C7 (counterexample): the public `createEnhancedError` utility
(behind `asyncSuper.enhanceError`) is given a request whose context
carries a correlation id, yet the enhanced error it returns has no
correlation id at all — the claim's "always has a correlation id set" is
false. -/
theorem c7_enhance_correlation_counterexample :
    (createEnhancedError 0 { message := "boom", name := "Error" }
        (some { method := "GET", path := "/u",
                contextCorrelationId := some "ctx-1" })
        none).correlationId = none := by
  rfl

/-- Claim C7 (amended): the public enhance-error utility always sets the
timestamp, but its correlation id is independent of the request and is
present only when the caller passes one in the extra context or the
original error already carried one — it is never generated.  The
always-set behaviour the claim describes belongs to the wrapper-internal
`AsyncWrapper.createEnhancedError`, which uses the context's id when it
is non-empty and a freshly generated one otherwise. -/
theorem c7_enhance_error_fields :
    (∀ (now : Nat) (e : Err) (req : Option ReqInfo) (ctx : Option AddCtx),
        (createEnhancedError now e req ctx).timestamp.isSome = true) ∧
    (∀ (now : Nat) (e : Err) (r r2 : ReqInfo) (ctx : Option AddCtx),
        (createEnhancedError now e (some r) ctx).correlationId =
          (createEnhancedError now e (some r2) ctx).correlationId) ∧
    (∀ (now : Nat) (e : Err) (req : Option ReqInfo), e.correlationId = none →
        (createEnhancedError now e req none).correlationId = none) ∧
    (∀ (now : Nat) (e : Err) (req : Option ReqInfo) (c : AddCtx) (cid : String),
        c.correlationId = some cid →
        (createEnhancedError now e req (some c)).correlationId = some cid) ∧
    (∀ (e : Err) (fresh : String),
        (AsyncWrapper.createEnhancedError e none fresh).correlationId =
          fresh) ∧
    (∀ (e : Err) (c fresh : String), c ≠ "" →
        (AsyncWrapper.createEnhancedError e (some c) fresh).correlationId =
          c) := by
  refine ⟨?_, ?_, ?_, ?_, ?_, ?_⟩
  · intro now e req ctx
    unfold createEnhancedError
    cases h : ctx.bind (fun c => c.timestamp) <;> simp [h]
  · intro now e r r2 ctx
    rfl
  · intro now e req h
    simp [createEnhancedError, h]
  · intro now e req c cid h
    simp [createEnhancedError, h]
  · intro e fresh
    rfl
  · intro e c fresh h
    simp [AsyncWrapper.createEnhancedError, jsStrOrOpt, h]

/-- Claim C7 witness: concrete instances — no context means no
correlation id, a context-supplied id wins, and the wrapper's enhancer
takes the request context's id. -/
theorem c7_enhance_error_fields_witness :
    (createEnhancedError 5 { message := "boom", name := "Error" } none
        none).correlationId = none ∧
    (createEnhancedError 5 { message := "boom", name := "Error" } none
        (some { correlationId := some "cid-7" })).correlationId =
      some "cid-7" ∧
    (AsyncWrapper.createEnhancedError { message := "boom", name := "Error" }
        (some "ctx-7") "fresh-7").correlationId = "ctx-7" :=
  ⟨c7_enhance_error_fields.2.2.1 5 { message := "boom", name := "Error" }
      none rfl,
   c7_enhance_error_fields.2.2.2.1 5 { message := "boom", name := "Error" }
      none { correlationId := some "cid-7" } "cid-7" rfl,
   c7_enhance_error_fields.2.2.2.2.2 { message := "boom", name := "Error" }
      "ctx-7" "fresh-7" (by decide)⟩

/-- Claim C4 (counterexample): with performance monitoring enabled, a
run of the wrapped handler that fails leaves the metrics store untouched
— no finalized sample is appended under "METHOD path", contradicting the
claim's "on both success and failure". -/
theorem c4_failure_metrics_counterexample :
    wrapRouteHandlerMetrics true 1000 { method := "GET", path := "/users" }
        0 5 (.fail { message := "boom", name := "Error" }) [] =
      ([] : MetricsStore) ∧
    getPerformanceMetrics
        (wrapRouteHandlerMetrics true 1000 { method := "GET", path := "/users" }
          0 5 (.fail { message := "boom", name := "Error" }) []) none = [] := by
  exact ⟨rfl, rfl⟩

/-- Claim C4 (amended): with performance monitoring enabled, a sample is
created at handler entry and, on normal return, finalized and appended to
the metrics store under the key "METHOD path"; on failure the catch path
goes to `handleAsyncError` and the sample is abandoned — the store is not
touched. -/
theorem c4_metrics_success_only :
    (∀ (threshold startTime endTime : Int) (r : ReqInfo) (st : MetricsStore),
        storeGet (wrapRouteHandlerMetrics true threshold r startTime endTime
            .ok st) (routeKey r) =
          storeGet st (routeKey r) ++
            [finalizeSample threshold startTime endTime r]) ∧
    (∀ (threshold startTime endTime : Int) (r : ReqInfo) (e : Err)
        (st : MetricsStore),
        wrapRouteHandlerMetrics true threshold r startTime endTime
          (.fail e) st = st) := by
  constructor
  · intro threshold startTime endTime r st
    unfold wrapRouteHandlerMetrics completePerformanceMonitoring
    simp [storeGet_storeAppend_same]
  · intro threshold startTime endTime r e st
    rfl

/-- Claim C6 (counterexample): the claim requires the wrapper's retryable
flag to follow the status-code fallback too; on an unclassifiable error
with `statusCode = 503` the standalone utility answers `true` but the
wrapper's flag is `false` — its final branch is an unconditional
`return false`. -/
theorem c6_retryable_counterexample :
    isRetryableError
        { message := "boom", name := "Error", statusCode := some 503 } =
      true ∧
    AsyncWrapper.isRetryableError
        { message := "boom", name := "Error", statusCode := some 503 } =
      false := by
  refine ⟨by decide, by decide⟩

/-- Claim C6 (amended): for the standalone `isRetryableError` utility a
NETWORK error is always retryable, a transient DATABASE error is
retryable, SYSTEM/VALIDATION/AUTHENTICATION/AUTHORIZATION errors are
never retryable, and an unclassified — or non-transient DATABASE — error
is retryable exactly when its `statusCode || status` field is a 5xx
(`500 ≤ n < 600`).  The wrapper's retryable flag has no status fallback:
it is true exactly for errors its own classifier calls NETWORK or
transient DATABASE. -/
theorem c6_retryable_rules :
    (∀ e : Err, categorizeError e = .network → isRetryableError e = true) ∧
    (∀ e : Err, categorizeError e = .database → dbTransientIndicator e = true →
        isRetryableError e = true) ∧
    (∀ e : Err, categorizeError e = .system ∨ categorizeError e = .validation ∨
        categorizeError e = .authentication ∨
        categorizeError e = .authorization →
        isRetryableError e = false) ∧
    (∀ e : Err, categorizeError e = .unknown ∨
        (categorizeError e = .database ∧ dbTransientIndicator e = false) →
        (isRetryableError e = true ↔
          ∃ n : Int, jsNumOr e.statusCode e.status = some n ∧
            500 ≤ n ∧ n < 600)) ∧
    (∀ e : Err, AsyncWrapper.isRetryableError e = true ↔
        (AsyncWrapper.categorizeError e = .network ∨
          (AsyncWrapper.categorizeError e = .database ∧
            AsyncWrapper.dbTransientIndicator e = true))) := by
  refine ⟨?_, ?_, ?_, ?_, ?_⟩
  · intro e h
    simp [isRetryableError, h]
  · intro e h ht
    simp [isRetryableError, h, ht]
  · intro e h
    rcases h with h | h | h | h <;> simp [isRetryableError, h]
  · intro e h
    have hred : isRetryableError e =
        match jsNumOr e.statusCode e.status with
        | some n => if n = 0 then false else decide (500 ≤ n ∧ n < 600)
        | none => false := by
      rcases h with h | ⟨h, ht⟩
      · simp [isRetryableError, h]
      · simp [isRetryableError, h, ht]
    rw [hred]
    cases hj : jsNumOr e.statusCode e.status with
    | none => simp
    | some n =>
      by_cases hn : n = 0
      · subst hn
        simp
      · simp [hn, decide_eq_true_iff]
  · intro e
    cases hc : AsyncWrapper.categorizeError e with
    | database =>
      cases hd : AsyncWrapper.dbTransientIndicator e <;>
        simp [AsyncWrapper.isRetryableError, hc, hd]
    | _ => simp [AsyncWrapper.isRetryableError, hc]

/-- Claim C6 witness: the amended rules applied at concrete errors — a
connection error is retryable, a validation error is not, and the
wrapper marks a timeout error retryable. -/
theorem c6_retryable_rules_witness :
    isRetryableError { message := "connection refused", name := "Error" } =
      true ∧
    isRetryableError { message := "validation failed", name := "Error" } =
      false ∧
    AsyncWrapper.isRetryableError
        { message := "timeout while calling api", name := "Error" } = true :=
  ⟨c6_retryable_rules.1 { message := "connection refused", name := "Error" }
      (by decide),
   c6_retryable_rules.2.2.1 { message := "validation failed", name := "Error" }
      (Or.inr (Or.inl (by decide))),
   (c6_retryable_rules.2.2.2.2
      { message := "timeout while calling api", name := "Error" }).mpr
      (Or.inl (by decide))⟩

/-- Claim C8: replaying any sequence of recorded samples against an
empty store, `getPerformanceMetrics` with a route key returns exactly the
samples recorded under that key in order, with no argument it returns all
recorded samples (as a permutation, grouped per key in insertion order),
and after a clear every query returns the empty sequence. -/
theorem c8_metrics_get_clear :
    (∀ (recs : List (String × Sample)) (k : String), k ≠ "" →
        getPerformanceMetrics (buildStore recs) (some k) =
          (recs.filter (fun p => p.1 == k)).map (fun p => p.2)) ∧
    (∀ recs : List (String × Sample),
        (getPerformanceMetrics (buildStore recs) none).Perm
          (recs.map (fun p => p.2))) ∧
    (∀ route : Option String,
        getPerformanceMetrics storeClear route = []) := by
  refine ⟨?_, ?_, ?_⟩
  · intro recs k hk
    simp only [getPerformanceMetrics, hk, if_neg, buildStore]
    have h := storeGet_buildStore_aux recs [] k
    simpa [storeGet] using h
  · intro recs
    simp only [getPerformanceMetrics, buildStore]
    have h := storeGetAll_buildStore_aux recs []
    simpa [storeGetAll] using h
  · intro route
    rcases route with _ | r
    · rfl
    · by_cases h : r = "" <;>
        simp [getPerformanceMetrics, storeClear, storeGet, storeGetAll, h]

/-- Claim C8 witness: three samples recorded under two keys — querying
"GET /a" returns its two samples in order. -/
theorem c8_metrics_get_clear_witness :
    getPerformanceMetrics
        (buildStore
          [("GET /a", (⟨0, 1, 1, false, "/a", "GET"⟩ : Sample)),
           ("GET /b", (⟨0, 2, 2, false, "/b", "GET"⟩ : Sample)),
           ("GET /a", (⟨3, 9, 6, false, "/a", "GET"⟩ : Sample))])
        (some "GET /a") =
      ([("GET /a", (⟨0, 1, 1, false, "/a", "GET"⟩ : Sample)),
        ("GET /b", (⟨0, 2, 2, false, "/b", "GET"⟩ : Sample)),
        ("GET /a", (⟨3, 9, 6, false, "/a", "GET"⟩ : Sample))].filter
          (fun p => p.1 == "GET /a")).map (fun p => p.2) :=
  c8_metrics_get_clear.1 _ "GET /a" (by decide)

end ExpressAsyncSuper
